import Mathlib

/-!
Verification development for the log2sentry repository (jakm/log2sentry).

The repository is a Python log formatter that renders a stdlib log record
into the JSON event format of the Sentry backend:

  * `log2sentry/log2json.py` : the `Log2Json` formatter and the defensive
    JSON encoder `_convert_to_json`;
  * `log2sentry/raven.py`    : code copied from raven-python 3.2.1 —
    `varmap`, the `Serializer`/`transform` value sanitizer, `shorten`,
    `get_lines_from_file`, `iter_stack_frames`, `get_stack_info`.

This file is a shallow embedding of that code.  Python values are modelled
by inductive types; object identity (needed by the cycle guards of
`varmap` and `Serializer.transform`) is modelled by a heap: a finite
association list from object ids to objects.  Fallible Python code is
modelled in `Except PyErr`; an `Except.error` models an uncaught raised
exception.  Machine-level details that the source never exercises
(bytes vs text, float formatting) are out of scope.

The serializer implementations (package `log2sentry.raven.serializer`,
declared in `setup.py`) are part of the repository but are not present
under `src/`; the registry in `raven.py` alone is empty.  Where a
definition depends on them it is modelled from the spec and marked
`Modelled from the spec:` in its doc comment.
-/

/-- The exceptions that the modelled code can raise.  `typeError` models
Python `TypeError` (also the json encoder error), `lookupError` models
`LookupError` from an unknown codec name, `valueError` models
`ValueError`, `strError` models an exception escaping `str()`/`repr()`
of an argument object. -/
inductive PyErr where
  | typeError
  | valueError
  | lookupError
  | strError
deriving DecidableEq, Repr

/-- A JSON-level Python value: what can sit inside the event dict that is
handed to `_convert_to_json`.  `junk` models an arbitrary Python object
that the json encoder rejects with its encode error (cjson
`EncodeError` / json `TypeError`). -/
inductive JVal where
  | jnull
  | jbool (b : Bool)
  | jint (n : Int)
  | jstr (s : String)
  | jarr (xs : List JVal)
  | jobj (fields : List (String × JVal))
  | junk (tag : String)

/-- Minimal JSON string escaping, as `json.dumps` performs on the
characters our model produces. -/
def escapeJsonStr (s : String) : String :=
  String.join (s.toList.map (fun c =>
    if c = '\\' then "\\\\"
    else if c = '"' then "\\\""
    else String.singleton c))

mutual

/-- Model of `json.dumps` (resp. `cjson.encode`) on a modelled value: `some` is the
produced JSON text, `none` models the encoder raising its encode error
(which happens exactly when a `junk` object occurs in the value).  The
textual form follows `json.dumps` defaults (separators `", "` and
`": "`). -/
def encodeJson : JVal → Option String
  | .jnull => some "null"
  | .jbool b => some (if b then "true" else "false")
  | .jint n => some (toString n)
  | .jstr s => some ("\"" ++ escapeJsonStr s ++ "\"")
  | .jarr xs =>
    match encodeJsonList xs with
    | some ss => some ("[" ++ String.intercalate ", " ss ++ "]")
    | none => none
  | .jobj fields =>
    match encodeJsonFields fields with
    | some ss => some ("\x7b" ++ String.intercalate ", " ss ++ "\x7d")
    | none => none
  | .junk _ => none

def encodeJsonList : List JVal → Option (List String)
  | [] => some []
  | v :: vs =>
    match encodeJson v, encodeJsonList vs with
    | some s, some ss => some (s :: ss)
    | _, _ => none

def encodeJsonFields : List (String × JVal) → Option (List String)
  | [] => some []
  | kv :: fs =>
    match encodeJson kv.2, encodeJsonFields fs with
    | some s, some ss => some (("\"" ++ escapeJsonStr kv.1 ++ "\": " ++ s) :: ss)
    | _, _ => none

end

/-- A string is syntactically valid JSON when it is the encoder's output
on some encodable value. -/
def IsValidJson (s : String) : Prop := ∃ v : JVal, encodeJson v = some s

/-- Model of `log2json.SENTRY_INTERFACES_EXCEPTION`. -/
def SENTRY_INTERFACES_EXCEPTION : String := "sentry.interfaces.Exception"

/-- The stacktrace interface key used by `_add_exception_info`. -/
def SENTRY_INTERFACES_STACKTRACE : String := "sentry.interfaces.Stacktrace"

/-- Model of `sentry_data.pop(key, None)` on the event dict: removes the binding of
`key` (dicts have unique keys; modelled as an association list). -/
def popKey (data : List (String × JVal)) (k : String) : List (String × JVal) :=
  data.filter (fun kv => !(kv.1 == k))

/-- Model of `log2json._convert_to_json`, together with the final state of the
(mutable) event dict: tries to encode the full event; on an encode error
pops `SENTRY_INTERFACES_EXCEPTION` from the dict in place and retries; on a
second failure returns the literal text `'{}'`.  The returned pair is
(result string, event dict after the call). -/
def convertToJsonS (sentry_data : List (String × JVal)) :
    String × List (String × JVal) :=
  match encodeJson (.jobj sentry_data) with
  | some s => (s, sentry_data)
  | none =>
    let d2 := popKey sentry_data SENTRY_INTERFACES_EXCEPTION
    match encodeJson (.jobj d2) with
    | some s => (s, d2)
    | none => ("\x7b\x7d", d2)

/-- The return value of `log2json._convert_to_json`. -/
def convertToJson (sentry_data : List (String × JVal)) : String :=
  (convertToJsonS sentry_data).1

/-- Modelled from the claim text of C2 (refinement comparison only, not
from the source): an encoder that, on the first failure, removes BOTH the
exception field and the stacktrace field before retrying. -/
def convertToJsonClaimed (sentry_data : List (String × JVal)) : String :=
  match encodeJson (.jobj sentry_data) with
  | some s => s
  | none =>
    let d2 := sentry_data.filter (fun kv =>
      !(kv.1 == SENTRY_INTERFACES_EXCEPTION) &&
      !(kv.1 == SENTRY_INTERFACES_STACKTRACE))
    match encodeJson (.jobj d2) with
    | some s => s
    | none => "\x7b\x7d"

/-! ## The Python heap model for the value sanitizer

`varmap` and `Serializer.transform` guard against reference cycles via
object identity (`id(var)`), so Python values are modelled as a finite
heap: an association list from object ids to objects whose container
fields hold child ids.  A cyclic object (a list containing itself) is a
heap entry whose element list mentions its own id. -/

/-- A Python runtime object.  `pobj` is any non-container, non-scalar
object; it carries the `str`/`repr` rendering of the object, with `none`
modelling a `repr` that raises. -/
inductive PyObj where
  | pnone
  | pbool (b : Bool)
  | pint (n : Int)
  | pstr (s : String)
  | plist (elems : List Nat)
  | ptuple (elems : List Nat)
  | pdict (fields : List (String × Nat))
  | pobj (typeName : String) (reprResult : Option String)
deriving DecidableEq, Repr

/-- Dereference an object id.  Ids not bound in the heap do not occur in
well-formed inputs; they default to `None`. -/
def lookupObj : List (Nat × PyObj) → Nat → PyObj
  | [], _ => .pnone
  | e :: rest, i => if e.1 = i then e.2 else lookupObj rest i

/-- The objects `varmap`/`transform` recurse into (`dict`, `list`,
`tuple`). -/
def PyObj.isContainer : PyObj → Bool
  | .plist _ => true
  | .ptuple _ => true
  | .pdict _ => true
  | _ => false

/-- Termination measure for the recursion of `varmap` and `transform`:
the number of container entries of the heap whose id is not yet in the
visiting context. -/
def countContainers (heap : List (Nat × PyObj)) (ctx : List Nat) : Nat :=
  (heap.filter (fun p => p.2.isContainer && !(decide (p.1 ∈ ctx)))).length

theorem length_filter_imp {α : Type} (p q : α → Bool)
    (h : ∀ a, q a = true → p a = true) (l : List α) :
    (l.filter q).length ≤ (l.filter p).length := by
  induction l with
  | nil => simp
  | cons a l ih =>
    cases hq : q a with
    | true =>
      have hp := h a hq
      rw [List.filter_cons_of_pos (by simp [hq]), List.filter_cons_of_pos (by simp [hp])]
      simpa using ih
    | false =>
      cases hp : p a with
      | true =>
        rw [List.filter_cons_of_neg (by simp [hq]), List.filter_cons_of_pos (by simp [hp])]
        exact Nat.le_succ_of_le ih
      | false =>
        rw [List.filter_cons_of_neg (by simp [hq]), List.filter_cons_of_neg (by simp [hp])]
        exact ih

theorem countContainers_mono (heap : List (Nat × PyObj)) (ctx : List Nat) (i : Nat) :
    countContainers heap (i :: ctx) ≤ countContainers heap ctx := by
  apply length_filter_imp
  intro a ha
  simp only [Bool.and_eq_true, Bool.not_eq_true', decide_eq_false_iff_not,
    List.mem_cons, not_or] at *
  exact ⟨ha.1, ha.2.2⟩

theorem countContainers_lt_aux (ctx : List Nat) (i : Nat) (hmem : i ∉ ctx) :
    ∀ heap : List (Nat × PyObj), (lookupObj heap i).isContainer = true →
    countContainers heap (i :: ctx) < countContainers heap ctx := by
  intro heap
  induction heap with
  | nil => intro h; simp [lookupObj, PyObj.isContainer] at h
  | cons e rest ih =>
    intro hcont
    obtain ⟨j, obj⟩ := e
    by_cases hj : j = i
    · subst hj
      have hl : lookupObj ((j, obj) :: rest) j = obj := by simp [lookupObj]
      rw [hl] at hcont
      unfold countContainers
      rw [List.filter_cons_of_neg (by simp),
        List.filter_cons_of_pos (by simp [hcont, hmem])]
      have hmono := countContainers_mono rest ctx j
      unfold countContainers at hmono
      simp only [List.length_cons]
      omega
    · have hl : lookupObj ((j, obj) :: rest) i = lookupObj rest i := by
        simp [lookupObj, hj]
      rw [hl] at hcont
      have hrec := ih hcont
      unfold countContainers at hrec ⊢
      by_cases hjc : j ∈ ctx
      · rw [List.filter_cons_of_neg (by simp [hjc]),
          List.filter_cons_of_neg (by simp [hjc])]
        exact hrec
      · by_cases hco : obj.isContainer = true
        · rw [List.filter_cons_of_pos (by simp [List.mem_cons, hco, hjc, hj]),
            List.filter_cons_of_pos (by simp [hco, hjc])]
          simp only [List.length_cons]
          omega
        · rw [List.filter_cons_of_neg (by simp [hco]),
            List.filter_cons_of_neg (by simp [hco])]
          exact hrec

theorem countContainers_lt (heap : List (Nat × PyObj)) (ctx : List Nat) (i : Nat)
    (hcont : (lookupObj heap i).isContainer = true) (hmem : i ∉ ctx) :
    countContainers heap (i :: ctx) < countContainers heap ctx :=
  countContainers_lt_aux ctx i hmem heap hcont

/-- Model of `Serializer.transform` (raven.py lines 145-176), on an object id.
The skeleton is the source: the `None` short-circuit, the identity-based
cycle guard returning the marker `'<...>'`, the renderer loop, and the
`repr`-based fallback with the `unicode(type(value))` placeholder when
`repr` raises.

Modelled from the spec: the registered renderers themselves.  The
serializer implementations live in the `log2sentry.raven.serializer`
package, which `setup.py` declares but which is not among the source
files; the registry constructed in `raven.py` alone is empty.  Following
spec section 4.1 the renderers process mapping types (preserving keys,
sanitizing each value), ordered-sequence types (sanitizing each element,
preserving order) and scalar types (returned unchanged); recursion
happens through this same `transform`, so the shared visiting context
detects cycles.  The `repr` fallback recursion
(`self.transform(repr(value))`) sanitizes a fresh string object, which
the scalar renderer returns unchanged, so it is inlined as that string. -/
def transformM (heap : List (Nat × PyObj)) (ctx : List Nat) (i : Nat) : JVal :=
  if _hnone : lookupObj heap i = PyObj.pnone then JVal.jnull
  else if hmem : i ∈ ctx then JVal.jstr "<...>"
  else
    match hv : lookupObj heap i with
    | .pnone => JVal.jnull
    | .pdict fields =>
      JVal.jobj (fields.map (fun kv => (kv.1, transformM heap (i :: ctx) kv.2)))
    | .plist es => JVal.jarr (es.map (fun j => transformM heap (i :: ctx) j))
    | .ptuple es => JVal.jarr (es.map (fun j => transformM heap (i :: ctx) j))
    | .pstr s => JVal.jstr s
    | .pint n => JVal.jint n
    | .pbool b => JVal.jbool b
    | .pobj _ (some rep) => JVal.jstr rep
    | .pobj t none => JVal.jstr ("<type \x27" ++ t ++ "\x27>")
termination_by countContainers heap ctx
decreasing_by
  all_goals
    exact countContainers_lt heap ctx i (by rw [hv]; rfl) hmem

/-- Model of `raven.varmap` (raven.py lines 76-95), on an object id: recursively
walks dicts (passing the key as the new name) and lists/tuples, applies
`func(name, value)` at every leaf, and renders a revisited ancestor as
`func(name, '<...>')`.  The context holds the ids on the current
recursion path: the source adds `objid` before recursing and deletes it
after, so each child call sees the ancestors plus the current id. -/
def varmapM (func : Option String → PyObj → JVal) (heap : List (Nat × PyObj))
    (ctx : List Nat) (i : Nat) (name : Option String) : JVal :=
  if hmem : i ∈ ctx then func name (PyObj.pstr "<...>")
  else
    match hv : lookupObj heap i with
    | .pdict fields =>
      JVal.jobj (fields.map (fun kv => (kv.1, varmapM func heap (i :: ctx) kv.2 (some kv.1))))
    | .plist es => JVal.jarr (es.map (fun j => varmapM func heap (i :: ctx) j name))
    | .ptuple es => JVal.jarr (es.map (fun j => varmapM func heap (i :: ctx) j name))
    | v => func name v
termination_by countContainers heap ctx
decreasing_by
  all_goals
    exact countContainers_lt heap ctx i (by rw [hv]; rfl) hmem

/-- Model of `raven.shorten(var, list_length, string_length)` (raven.py lines
194-205) on an object id: sanitizes the value with `transform`, then
truncates an over-long string to `string_length` characters plus the
`'...'` marker, and an over-long list/tuple to its first `list_length`
elements plus the `'...'` entry and the `'(%d more elements)'` entry.
Dict values pass through untruncated. -/
def shortenM (heap : List (Nat × PyObj)) (i : Nat)
    (list_length string_length : Nat) : JVal :=
  let var := transformM heap [] i
  match var with
  | .jstr s =>
    if s.length > string_length then JVal.jstr (s.take string_length ++ "...")
    else var
  | .jarr xs =>
    if xs.length > list_length then
      JVal.jarr (xs.take list_length ++
        [JVal.jstr "...",
         JVal.jstr ("(" ++ toString (xs.length - list_length) ++ " more elements)")])
    else var
  | _ => var

/-! ## The stack frame extractor (raven.utils.stacks) -/

/-- Python truthiness of a modelled object (`if x:`). -/
def pyTruthy : PyObj → Bool
  | .pnone => false
  | .pbool b => b
  | .pint n => !(n == 0)
  | .pstr s => !(s == "")
  | .plist es => !es.isEmpty
  | .ptuple es => !es.isEmpty
  | .pdict fs => !fs.isEmpty
  | .pobj _ _ => true

/-- Truthiness of an optional string (`None` and `''` are falsy). -/
def pyTruthyOptStr : Option String → Bool
  | none => false
  | some s => !(s == "")

def isRN (c : Char) : Bool := c == '\r' || c == '\n'

/-- Python `line.strip('\r\n')`: removes carriage returns and newlines
from both ends of the string. -/
def stripRN (s : String) : String :=
  String.mk (((s.toList.dropWhile isRN).reverse.dropWhile isRN).reverse)

/-- Python `text.splitlines()` (newline-terminated text loses no line and
gains no empty trailing entry). -/
def pySplitlines (s : String) : List String :=
  if s = "" then []
  else
    let parts := s.splitOn "\n"
    if parts.getLast? = some "" then parts.dropLast else parts

def isCodingWordChar (c : Char) : Bool :=
  c.isAlphanum || c == '_' || c == '-' || c == '.'

/-- One attempted match of the PEP-263 pattern
`coding[:=]\s*([-\w.]+)` at the head of the character list. -/
def codingAt : List Char → Option String
  | 'c' :: 'o' :: 'd' :: 'i' :: 'n' :: 'g' :: d :: rest =>
    if d == ':' || d == '=' then
      let rest2 := rest.dropWhile (fun ch => ch == ' ' || ch == '\t')
      let w := rest2.takeWhile isCodingWordChar
      if w.isEmpty then none else some (String.mk w)
    else none
  | _ => none

/-- Model of `_coding_re.search(line)`: first position where the coding pattern
matches. -/
def scanCoding : List Char → Option String
  | [] => none
  | c :: rest =>
    match codingAt (c :: rest) with
    | some w => some w
    | none => scanCoding rest

/-- The encoding-declaration loop of `get_lines_from_file`: the first
match over the first two source lines. -/
def findCodingDecl (lines : List String) : Option String :=
  (lines.take 2).findSome? (fun line => scanCoding line.toList)

/-- The outcome of `loader.get_source(module_name)`: `Except.error`
models an `ImportError` (caught by the source), `Except.ok none` a
`None` result, `Except.ok (some text)` the module source text. -/
abbrev LoaderT := Except Unit (Option String)

/-- The fields of a frame's code object used by `get_stack_info`. -/
structure PyCode where
  co_filename : String
  co_name : String

/-- A Python frame as consumed by the extractor.  `f_locals` is the heap
id of the frame's locals object; `loader` and `moduleName` model
`f_globals['__loader__']` (collapsed with the `hasattr(loader,
'get_source')` test: `none` when absent) and `f_globals['__name__']`. -/
structure PyFrame where
  f_locals : Nat
  f_lineno : Nat
  f_code : Option PyCode
  loader : Option LoaderT
  moduleName : Option String

/-- The ambient interpreter state: the value heap, the file system
(`open`/`readlines` per file name), the codec registry (known text
encoding names), `sys.modules` (top-level module name to its
`__file__`), the live call stack at the point `inspect.stack()` is
called inside `iter_stack_frames` (entry 0 is `iter_stack_frames`'s own
frame), and the `uuid4`/`utcnow` randomness consumed by
`_prepare_data`. -/
structure Env where
  heap : List (Nat × PyObj)
  fs : List (String × List String)
  codecs : List String
  sysModules : List (String × String)
  callStack : List (PyFrame × Nat)
  event_id : String
  timestamp : String

/-- Model of `raven.get_lines_from_file(filename, lineno, context_lines, loader,
module_name)` (raven.py lines 220-280).  Reads the source text (loader
first, then the file system; read failures are caught and yield the
`none` triple), detects the declared encoding (default `'ascii'`), and
raises `LookupError` when the declared codec is unknown (the `unicode(
sline, encoding, 'replace')` loop; this exception is NOT caught).
Returns `(pre_context, context_line, post_context)` or `none` when the
source is unavailable or the line is out of range (the caught
`IndexError`). -/
def get_lines_from_fileM (env : Env) (filename : String) (lineno : Nat)
    (context_lines : Nat) (loader : Option LoaderT) (_module_name : Option String) :
    Except PyErr (Option (List String × String × List String)) :=
  let fromLoader : Option (List String) :=
    match loader with
    | some (Except.ok (some text)) => some (pySplitlines text)
    | _ => none
  let source : Option (List String) :=
    match fromLoader with
    | some s => some s
    | none => env.fs.lookup filename
  match source with
  | none => Except.ok none
  | some lines =>
    let encoding := (findCodingDecl lines).getD "ascii"
    if !lines.isEmpty && !(env.codecs.contains encoding) then
      Except.error PyErr.lookupError
    else
      let lower := lineno - context_lines
      let upper := min (lineno + 1 + context_lines) lines.length
      if hl : lineno < lines.length then
        Except.ok (some
          (((lines.drop lower).take (lineno - lower)).map stripRN,
           stripRN (lines.get ⟨lineno, hl⟩),
           ((lines.drop (lineno + 1)).take (upper - (lineno + 1))).map stripRN))
      else Except.ok none

/-- Python `s.split('.', 1)[0]`. -/
def pySplitDotHead (s : String) : String := (s.splitOn ".").headD s

/-- Python `s.rsplit('/', 2)[0]`. -/
def pyRsplitSlash2Head (s : String) : String :=
  let parts := s.splitOn "/"
  if parts.length ≥ 3 then String.intercalate "/" (parts.take (parts.length - 2))
  else parts.headD s

/-- Python `s.split(sep, 1)[-1]` for non-empty `sep`: the text after the
first occurrence of `sep`, or all of `s` when `sep` does not occur. -/
def pySplitOnceAfter (s sep : String) : String :=
  let parts := s.splitOn sep
  if parts.length ≤ 1 then s else String.intercalate sep parts.tail

/-- The relative-file-path computation of `get_stack_info` (raven.py
lines 373-379): `sys.modules[module_name.split('.', 1)[0]].__file__`,
then `abs_path.split(base_filename.rsplit('/', 2)[0], 1)[-1][1:]`,
with the bare `except:` falling back to `abs_path` on any failure
(missing module name, unknown module, missing path, or the
`ValueError` from splitting on an empty separator). -/
def relFilename (env : Env) (module_name : Option String)
    (abs_path : Option String) : Option String :=
  match module_name with
  | none => abs_path
  | some mn =>
    match env.sysModules.lookup (pySplitDotHead mn) with
    | none => abs_path
    | some base =>
      match abs_path with
      | none => abs_path
      | some ap =>
        let root := pyRsplitSlash2Head base
        if root = "" then abs_path
        else some ((pySplitOnceAfter ap root).drop 1)

/-- The hidden-frame test shared by `iter_stack_frames` and
`get_stack_info`: `_getitem_from_frame(f_locals, '__traceback_hide__')`
is truthy.  A non-mapping locals object makes the lookup raise, which
`_getitem_from_frame` turns into the falsy default `None`. -/
def hideMarker (heap : List (Nat × PyObj)) (localsId : Nat) : Bool :=
  match lookupObj heap localsId with
  | .pdict fields =>
    match fields.lookup "__traceback_hide__" with
    | some vid => pyTruthy (lookupObj heap vid)
    | none => false
  | _ => false

/-- Model of `raven.iter_stack_frames(frames)` (raven.py lines 310-323): when the
argument is falsy (`None` or an empty list) it falls back to
`inspect.stack()[1:]` — the live call stack without its own frame — and
yields every `(frame, lineno)` pair whose frame is not hidden. -/
def iter_stack_framesM (env : Env) (frames : Option (List (PyFrame × Nat))) :
    List (PyFrame × Nat) :=
  let fs := match frames with
    | none => env.callStack.drop 1
    | some [] => env.callStack.drop 1
    | some l => l
  fs.filter (fun p => !(hideMarker env.heap p.1.f_locals))

/-- An element of the iterable handed to `get_stack_info`: either the
"old, terrible API" `(frame, lineno)` tuple or a bare frame (whose
`f_lineno` is then used). -/
inductive FrameInfo where
  | pair (frame : PyFrame) (lineno : Nat)
  | only (frame : PyFrame)

def FrameInfo.frameOf : FrameInfo → PyFrame
  | .pair f _ => f
  | .only f => f

def FrameInfo.linenoOf : FrameInfo → Nat
  | .pair _ n => n
  | .only f => f.f_lineno

/-- One frame descriptor produced by `get_stack_info`; `context` filled
means the `pre_context`/`context_line`/`post_context` keys are present. -/
structure FrameResult where
  abs_path : Option String
  filename : Option String
  moduleVal : Option String
  functionVal : String
  lineno : Nat
  vars : JVal
  context : Option (List String × String × List String)

def frameAbsPath (frame : PyFrame) : Option String :=
  frame.f_code.map (fun c => c.co_filename)

def frameFunctionName (frame : PyFrame) : Option String :=
  frame.f_code.map (fun c => c.co_name)

/-- The source-context retrieval step of the loop body: `get_lines_from_file`
is consulted only when `abs_path` is truthy (`if lineno is not None and
abs_path:`; the modelled `lineno` is never `None`). -/
def frameContextOf (env : Env) (frame : PyFrame) (abs_path : Option String)
    (lineno2 : Nat) : Except PyErr (Option (List String × String × List String)) :=
  if pyTruthyOptStr abs_path then
    get_lines_from_fileM env (abs_path.getD "") lineno2 5 frame.loader frame.moduleName
  else Except.ok none

/-- The locals coercion and sanitization of the loop body: `None` locals
stay `None`, dict locals go through `transform`, and a non-mapping
locals object becomes the `'<invalid local scope>'` placeholder after
the caught `to_dict` failure (our non-dict objects expose no key
enumeration). -/
def frameVars (env : Env) (frame : PyFrame) : JVal :=
  match lookupObj env.heap frame.f_locals with
  | .pnone => JVal.jnull
  | .pdict _ => transformM env.heap [] frame.f_locals
  | _ => JVal.jstr "<invalid local scope>"

/-- The loop body of `get_stack_info` for one non-hidden frame (raven.py
lines 352-408): code-object fields (`abs_path`/`function` are `None`
without a code object), the 0-based line adjustment
(`if lineno: lineno -= 1`), source context retrieval (a raised
`LookupError` propagates), best-effort path relativization with the
`if not filename: filename = abs_path` fallback, locals coercion and
`transform`, and the final descriptor with `lineno + 1`. -/
def frameEntry (env : Env) (frame : PyFrame) (lineno : Nat) :
    Except PyErr FrameResult :=
  match frameContextOf env frame (frameAbsPath frame)
      (if lineno ≠ 0 then lineno - 1 else lineno) with
  | .error e => .error e
  | .ok ctxInfo =>
    Except.ok
      { abs_path := frameAbsPath frame,
        filename :=
          (if pyTruthyOptStr (relFilename env frame.moduleName (frameAbsPath frame)) then
            relFilename env frame.moduleName (frameAbsPath frame)
          else frameAbsPath frame),
        moduleVal := (match frame.moduleName with
          | some m => if m = "" then none else some m
          | none => none),
        functionVal := (match frameFunctionName frame with
          | some fn => if fn = "" then "<unknown>" else fn
          | none => "<unknown>"),
        lineno := (if lineno ≠ 0 then lineno - 1 else lineno) + 1,
        vars := frameVars env frame,
        context := ctxInfo }

/-- Model of `raven.get_stack_info(frames)` (raven.py lines 326-409): walks the
frame infos in order, skips hidden frames (the `continue` at line 350),
builds a descriptor for each remaining frame, and propagates any
exception raised along the way. -/
def get_stack_infoM (env : Env) : List FrameInfo → Except PyErr (List FrameResult)
  | [] => .ok []
  | fi :: rest =>
    if hideMarker env.heap fi.frameOf.f_locals then get_stack_infoM env rest
    else
      match frameEntry env fi.frameOf fi.linenoOf with
      | .error e => .error e
      | .ok r =>
        match get_stack_infoM env rest with
        | .error e => .error e
        | .ok rs => .ok (r :: rs)

/-! ## The log2json formatter (Log2Json, _prepare_data, format)

The frame descriptors built by `get_stack_info` are fresh, identity-
distinct dict/list structures, so when `varmap` and `shorten`/`transform`
run over them in `_add_exception_info` the identity-based cycle guards
can never fire (no id repeats along a path of a newly built tree).  The
following `...Jv`/`...J` functions are those same source functions
specialized to such cycle-free JSON-level values. -/

mutual

/-- Model of `Serializer.transform` on a fresh JSON-level value (see the module
comment of `transformM` for the spec-modelled renderers): scalars and
`None` are unchanged, dicts and lists recurse, and a non-serializable
leaf degrades through the `repr`/type-name fallback to a string. -/
def transformJv : JVal → JVal
  | .jnull => .jnull
  | .jstr s => .jstr s
  | .jint n => .jint n
  | .jbool b => .jbool b
  | .jarr xs => .jarr (transformJvList xs)
  | .jobj fs => .jobj (transformJvFields fs)
  | .junk t => .jstr ("<type \x27" ++ t ++ "\x27>")

def transformJvList : List JVal → List JVal
  | [] => []
  | v :: vs => transformJv v :: transformJvList vs

def transformJvFields : List (String × JVal) → List (String × JVal)
  | [] => []
  | kv :: fs => (kv.1, transformJv kv.2) :: transformJvFields fs

end

/-- Model of `raven.shorten` on a fresh JSON-level value (same truncation logic
as `shortenM`). -/
def shortenJv (v : JVal) (list_length string_length : Nat) : JVal :=
  let var := transformJv v
  match var with
  | .jstr s =>
    if s.length > string_length then JVal.jstr (s.take string_length ++ "...")
    else var
  | .jarr xs =>
    if xs.length > list_length then
      JVal.jarr (xs.take list_length ++
        [JVal.jstr "...",
         JVal.jstr ("(" ++ toString (xs.length - list_length) ++ " more elements)")])
    else var
  | _ => var

mutual

/-- Model of `raven.varmap(func, var, context, name)` on a fresh JSON-level value:
recurses into dicts (the key becomes the name) and lists, applies
`func(name, value)` at the leaves.  The identity check against the
context never fires on these freshly built trees, so it is elided. -/
def varmapJ (func : Option String → JVal → JVal) : JVal → Option String → JVal
  | .jobj fs, _ => .jobj (varmapJFields func fs)
  | .jarr xs, name => .jarr (varmapJList func xs name)
  | v, name => func name v

def varmapJFields (func : Option String → JVal → JVal) :
    List (String × JVal) → List (String × JVal)
  | [] => []
  | kv :: fs => (kv.1, varmapJ func kv.2 (some kv.1)) :: varmapJFields func fs

def varmapJList (func : Option String → JVal → JVal) :
    List JVal → Option String → List JVal
  | [], _ => []
  | v :: vs, name => varmapJ func v name :: varmapJList func vs name

end

/-- The dict built for one frame descriptor (`frame_result` in
`get_stack_info`), in literal order; the context keys are present only
when `context_line is not None`. -/
def frameResultToJVal (r : FrameResult) : JVal :=
  let optStrJ : Option String → JVal := fun o =>
    match o with
    | some s => JVal.jstr s
    | none => JVal.jnull
  JVal.jobj
    ([("abs_path", optStrJ r.abs_path),
      ("filename", optStrJ r.filename),
      ("module", optStrJ r.moduleVal),
      ("function", JVal.jstr r.functionVal),
      ("lineno", JVal.jint r.lineno),
      ("vars", r.vars)] ++
     (match r.context with
      | some (pre, c, post) =>
        [("pre_context", JVal.jarr (pre.map JVal.jstr)),
         ("context_line", JVal.jstr c),
         ("post_context", JVal.jarr (post.map JVal.jstr))]
      | none => []))

/-- Python `str(a)` on an argument object, as used for the `params` list
(`[str(a) for a in record.args]`).  An object whose `repr` raises makes
`str` raise; the rendering of container arguments is not relevant to any
claim and is abbreviated. -/
def pyStrOf : PyObj → Except PyErr String
  | .pnone => .ok "None"
  | .pbool b => .ok (if b then "True" else "False")
  | .pint n => .ok (toString n)
  | .pstr s => .ok s
  | .plist _ => .ok "<list>"
  | .ptuple _ => .ok "<tuple>"
  | .pdict _ => .ok "<dict>"
  | .pobj _ (some rep) => .ok rep
  | .pobj _ none => .error .strError

/-- Python `%`-formatting as used by `LogRecord.getMessage` (`msg %
self.args`).  Only `%s` and `%%` are modelled; any other conversion is
modelled as an error, as are too few or too many arguments. -/
def ppfChars : List Char → List PyObj → Except PyErr String
  | [], [] => .ok ""
  | [], _ :: _ => .error .typeError
  | '%' :: 's' :: rest, a :: as =>
    (match pyStrOf a, ppfChars rest as with
     | .ok sa, .ok r => .ok (sa ++ r)
     | .error e, _ => .error e
     | _, .error e => .error e)
  | '%' :: 's' :: _, [] => .error .typeError
  | '%' :: '%' :: rest, as =>
    (match ppfChars rest as with
     | .ok r => .ok ("%" ++ r)
     | .error e => .error e)
  | '%' :: [], _ => .error .valueError
  | '%' :: _ :: _, _ => .error .valueError
  | c :: rest, as =>
    (match ppfChars rest as with
     | .ok r => .ok (c.toString ++ r)
     | .error e => .error e)

def pyPercentFormat (fmt : String) (args : List PyObj) : Except PyErr String :=
  ppfChars fmt.toList args

/-- The exception triple of a record together with the frames that
`inspect.getinnerframes(tb)` yields for its traceback: `typeStr` and
`valueStr` are `str(type_)` and `str(value)`. -/
structure ExcInfo where
  typeStr : String
  valueStr : String
  frames : List (PyFrame × Nat)

/-- The inbound log record (`logging.LogRecord`): raw message, format
args (`none` models `args = None`), numeric level, logger name,
function name, module, and the optional exception triple. -/
structure LogRecord where
  msg : String
  args : Option (List PyObj)
  levelno : Int
  name : String
  funcName : String
  moduleAttr : String
  exc_info : Option ExcInfo

/-- The state `Log2Json.__init__` leaves on the formatter: optional
project, resolved fqdn, and the two integer limits. -/
structure L2JConfig where
  project : Option String
  fqdn : String
  string_max_length : Nat
  list_max_length : Nat

/-- Model of `LogRecord.getMessage()`: the raw message, `%`-formatted with the
args when they are truthy (`if self.args:`). -/
def getMessageM (rec : LogRecord) : Except PyErr String :=
  match rec.args with
  | some (a :: as) => pyPercentFormat rec.msg (a :: as)
  | _ => .ok rec.msg

/-- The event dict literal of `_prepare_data` (log2json.py lines
93-108), before exception info: envelope fields, the Message interface
block with the defensively stringified `params`, and the optional
`project` key (`if self.project:`). -/
def baseDataOf (env : Env) (cfg : L2JConfig) (rec : LogRecord)
    (message : String) (params : List String) : List (String × JVal) :=
  let data : List (String × JVal) :=
    [("event_id", JVal.jstr env.event_id),
     ("message", JVal.jstr message),
     ("timestamp", JVal.jstr env.timestamp),
     ("level", JVal.jint rec.levelno),
     ("logger", JVal.jstr rec.name),
     ("culprit", JVal.jstr rec.funcName),
     ("server_name", JVal.jstr cfg.fqdn),
     ("sentry.interfaces.Message",
      JVal.jobj [("message", JVal.jstr rec.msg),
                 ("params", JVal.jarr (params.map JVal.jstr))])]
  if pyTruthyOptStr cfg.project then
    data ++ [("project", JVal.jstr (cfg.project.getD ""))]
  else data

/-- Model of `Log2Json._add_exception_info` (log2json.py lines 116-149): adds the
Exception interface block, then builds the Stacktrace frames through
`get_stack_info(iter_stack_frames(inspect.getinnerframes(tb)))` followed
by `varmap` of the `shorten` lambda; an exception raised by the stack
walk propagates (there is no handler). -/
def addExceptionInfoM (env : Env) (cfg : L2JConfig) (data : List (String × JVal))
    (rec : LogRecord) (ei : ExcInfo) : Except PyErr (List (String × JVal)) :=
  let data1 := data ++
    [(SENTRY_INTERFACES_EXCEPTION,
      JVal.jobj [("type", JVal.jstr ei.typeStr),
                 ("value", JVal.jstr ei.valueStr),
                 ("module", JVal.jstr rec.moduleAttr)])]
  match get_stack_infoM env
      ((iter_stack_framesM env (some ei.frames)).map
        (fun p => FrameInfo.pair p.1 p.2)) with
  | .error e => .error e
  | .ok results =>
    let frames := varmapJ
      (fun _ v => shortenJv v cfg.list_max_length cfg.string_max_length)
      (.jarr (results.map frameResultToJVal)) none
    .ok (data1 ++ [(SENTRY_INTERFACES_STACKTRACE, JVal.jobj [("frames", frames)])])

/-- Model of `Log2Json._prepare_data` (log2json.py lines 91-114).  The `params`
list comprehension iterates `record.args`: with `args = None` this
raises `TypeError` (`NoneType` is not iterable), uncaught.  Exception
info is added only when `record.exc_info` is truthy, with no handler
around the call. -/
def prepareDataM (env : Env) (cfg : L2JConfig) (rec : LogRecord)
    (message : String) : Except PyErr (List (String × JVal)) :=
  match (match rec.args with
         | none => Except.error PyErr.typeError
         | some l => l.mapM pyStrOf) with
  | .error e => .error e
  | .ok params =>
    let data := baseDataOf env cfg rec message params
    match rec.exc_info with
    | none => .ok data
    | some ei => addExceptionInfoM env cfg data rec ei

/-- Model of `Log2Json.format(record)` (log2json.py lines 82-89): sets
`record.message = record.getMessage()`, prepares the event dict, and
encodes it with `_convert_to_json`.  An exception raised anywhere in
that chain propagates to the caller. -/
def formatM (env : Env) (cfg : L2JConfig) (rec : LogRecord) :
    Except PyErr String :=
  match getMessageM rec with
  | .error e => .error e
  | .ok message =>
    match prepareDataM env cfg rec message with
    | .error e => .error e
    | .ok data => .ok (convertToJson data)

/-! ## Concrete inputs used by the claim theorems -/

/-- A trivial environment and frame used by the C9 theorems. -/
def c9env : Env :=
  { heap := [], fs := [], codecs := [], sysModules := [], callStack := [],
    event_id := "", timestamp := "" }

def c9frame : PyFrame :=
  { f_locals := 0, f_lineno := 0, f_code := none, loader := none,
    moduleName := none }

/-- A trivial environment and configuration for the C1 theorem. -/
def c1env : Env :=
  { heap := [], fs := [], codecs := ["ascii"], sysModules := [], callStack := [],
    event_id := "e1", timestamp := "t1" }

def c1cfg : L2JConfig :=
  { project := none, fqdn := "host", string_max_length := 400,
    list_max_length := 50 }

/-- A record with `args = None` (permitted by the stdlib record contract:
`LogRecord.args` may be `None`) and no exception info. -/
def c1rec : LogRecord :=
  { msg := "hello", args := none, levelno := 20, name := "app",
    funcName := "f", moduleAttr := "m", exc_info := none }

/-- C2 inputs: event dicts with an unencodable value under the
stacktrace resp. exception interface key. -/
def c2dataBadStack : List (String × JVal) :=
  [("a", JVal.jstr "m"), (SENTRY_INTERFACES_STACKTRACE, JVal.junk "frames")]

def c2dataBadExc : List (String × JVal) :=
  [("msg", JVal.jstr "m"), (SENTRY_INTERFACES_EXCEPTION, JVal.junk "tb")]

/-- C8 inputs: an event dict with an unencodable exception value, and a
fully encodable one. -/
def c8dataBadExc : List (String × JVal) :=
  [(SENTRY_INTERFACES_EXCEPTION, JVal.junk "e"), ("message", JVal.jstr "m")]

def c8dataGood : List (String × JVal) := [("k", JVal.jstr "v")]

/-- C3 inputs: an environment whose file system holds a source file whose
first line declares an unknown text encoding, and records whose
exception traceback points into that file. -/
def c3frame : PyFrame :=
  { f_locals := 100, f_lineno := 1,
    f_code := some { co_filename := "bad.py", co_name := "f" },
    loader := none, moduleName := some "mod" }

def c3env : Env :=
  { heap := [(100, PyObj.pdict [])],
    fs := [("bad.py", ["# coding: bogus", "x = 1"])],
    codecs := ["ascii", "utf-8"], sysModules := [], callStack := [],
    event_id := "e3", timestamp := "t3" }

def c3cfg : L2JConfig :=
  { project := none, fqdn := "host", string_max_length := 400,
    list_max_length := 50 }

def c3exc : ExcInfo :=
  { typeStr := "exceptions.ValueError", valueStr := "boom",
    frames := [(c3frame, 1)] }

def c3rec : LogRecord :=
  { msg := "boom", args := some [], levelno := 40, name := "app",
    funcName := "f", moduleAttr := "mod", exc_info := some c3exc }

def c3recW : LogRecord :=
  { msg := "boom2", args := some [], levelno := 40, name := "app2",
    funcName := "g", moduleAttr := "mod", exc_info := some c3exc }

/-! ## Lemmas -/

-- Basic facts about the safe encoder.

theorem validJson_convertToJson (data : List (String × JVal)) :
    IsValidJson (convertToJson data) := by
  unfold convertToJson convertToJsonS
  cases h1 : encodeJson (.jobj data) with
  | some s => exact ⟨.jobj data, by simp [h1]⟩
  | none =>
    cases h2 : encodeJson (.jobj (popKey data SENTRY_INTERFACES_EXCEPTION)) with
    | some s =>
      exact ⟨.jobj (popKey data SENTRY_INTERFACES_EXCEPTION),
        by simp only [h1, h2]⟩
    | none => exact ⟨.jobj [], by simp only [h1, h2]; rfl⟩

theorem popKey_lookup_other (data : List (String × JVal)) (k k' : String)
    (hne : k' ≠ k) : (popKey data k).lookup k' = data.lookup k' := by
  induction data with
  | nil => rfl
  | cons kv rest ih =>
    obtain ⟨k1, v1⟩ := kv
    unfold popKey at ih ⊢
    by_cases hk : k1 = k
    · subst hk
      have h2 : (k' == k1) = false := beq_eq_false_iff_ne.mpr hne
      simp [List.filter_cons, List.lookup, h2, ih]
    · have h1 : (!(k1 == k)) = true := by simp [hk]
      cases bkv : (k' == k1) with
      | true => simp [List.filter_cons, h1, List.lookup, bkv]
      | false => simp [List.filter_cons, h1, List.lookup, bkv, ih]

-- Evaluation lemmas for `transformM` away from the cycle guard.

theorem transformM_str (heap : List (Nat × PyObj)) (ctx : List Nat) (i : Nat)
    (s : String) (h : lookupObj heap i = PyObj.pstr s) (hc : i ∉ ctx) :
    transformM heap ctx i = JVal.jstr s := by
  rw [transformM.eq_def]
  simp [h, hc]
  split <;> simp_all

theorem transformM_int (heap : List (Nat × PyObj)) (ctx : List Nat) (i : Nat)
    (n : Int) (h : lookupObj heap i = PyObj.pint n) (hc : i ∉ ctx) :
    transformM heap ctx i = JVal.jint n := by
  rw [transformM.eq_def]
  simp [h, hc]
  split <;> simp_all

theorem transformM_bool (heap : List (Nat × PyObj)) (ctx : List Nat) (i : Nat)
    (b : Bool) (h : lookupObj heap i = PyObj.pbool b) (hc : i ∉ ctx) :
    transformM heap ctx i = JVal.jbool b := by
  rw [transformM.eq_def]
  simp [h, hc]
  split <;> simp_all

theorem transformM_list (heap : List (Nat × PyObj)) (ctx : List Nat) (i : Nat)
    (es : List Nat) (h : lookupObj heap i = PyObj.plist es) (hc : i ∉ ctx) :
    transformM heap ctx i = JVal.jarr (es.map (fun j => transformM heap (i :: ctx) j)) := by
  rw [transformM.eq_def]
  simp [h, hc]
  split <;> simp_all

/-! ## Claims C4, C5, C6 — the value sanitizer and the shortener -/

/-- C4: sanitizing an already-JSON-safe scalar value (a plain string,
number, or boolean) with the Value Sanitizer's `transform` returns that
value unchanged. -/
theorem c4_transform_is_identity_on_safe_scalars :
    (∀ heap i s, lookupObj heap i = PyObj.pstr s →
      transformM heap [] i = JVal.jstr s) ∧
    (∀ heap i n, lookupObj heap i = PyObj.pint n →
      transformM heap [] i = JVal.jint n) ∧
    (∀ heap i b, lookupObj heap i = PyObj.pbool b →
      transformM heap [] i = JVal.jbool b) :=
  ⟨fun heap i s h => transformM_str heap [] i s h (by simp),
   fun heap i n h => transformM_int heap [] i n h (by simp),
   fun heap i b h => transformM_bool heap [] i b h (by simp)⟩

/-- Witness for C4 at concrete scalar inputs. -/
theorem c4_transform_is_identity_on_safe_scalars_witness :
    transformM [(0, PyObj.pstr "abc")] [] 0 = JVal.jstr "abc" ∧
    transformM [(1, PyObj.pint (-7))] [] 1 = JVal.jint (-7) ∧
    transformM [(2, PyObj.pbool true)] [] 2 = JVal.jbool true :=
  ⟨c4_transform_is_identity_on_safe_scalars.1 _ 0 _ rfl,
   c4_transform_is_identity_on_safe_scalars.2.1 _ 1 _ rfl,
   c4_transform_is_identity_on_safe_scalars.2.2 _ 2 _ rfl⟩

/-- C5: sanitizing a self-referential container (here, a list whose
single element is the list itself) terminates — `varmapM` and
`transformM` are total functions, their recursion being well-founded by
`countContainers` — and the revisited ancestor renders as the cycle
marker `'<...>'`: `varmap` yields `func(name, '<...>')` for it, and
`transform` yields the marker string itself. -/
theorem c5_cycle_terminates_and_renders_marker
    (heap : List (Nat × PyObj)) (i : Nat)
    (f : Option String → PyObj → JVal)
    (h : lookupObj heap i = PyObj.plist [i]) :
    varmapM f heap [] i none = JVal.jarr [f none (PyObj.pstr "<...>")] ∧
    transformM heap [] i = JVal.jarr [JVal.jstr "<...>"] := by
  constructor
  · have h2 : varmapM f heap [i] i none = f none (PyObj.pstr "<...>") := by
      rw [varmapM.eq_def]
      simp
    rw [varmapM.eq_def]
    simp
    split <;> simp_all
  · have h2 : transformM heap [i] i = JVal.jstr "<...>" := by
      rw [transformM.eq_def]
      simp [h]
    rw [transformM.eq_def]
    simp [h]
    split <;> simp_all

/-- Witness for C5 on the concrete one-element cyclic heap. -/
theorem c5_cycle_terminates_and_renders_marker_witness :
    varmapM (fun _ v => JVal.jstr "leaf") [(0, PyObj.plist [0])] [] 0 none =
      JVal.jarr [JVal.jstr "leaf"] ∧
    transformM [(0, PyObj.plist [0])] [] 0 = JVal.jarr [JVal.jstr "<...>"] :=
  ⟨(c5_cycle_terminates_and_renders_marker [(0, PyObj.plist [0])] 0
      (fun _ _ => JVal.jstr "leaf") rfl).1,
   (c5_cycle_terminates_and_renders_marker [(0, PyObj.plist [0])] 0
      (fun _ _ => JVal.jstr "leaf") rfl).2⟩

/-- C6: the truncation laws of `shorten`.  A string of length greater
than `string_length` shortens to exactly its first `string_length`
characters followed by the `'...'` marker; a sequence of length greater
than `list_length` shortens to exactly its first `list_length`
(sanitized) elements followed by the `'...'` marker entry and then the
`'(%d more elements)'` count entry, in that order. -/
theorem c6_shorten_truncation_laws :
    (∀ heap i s ll sl, lookupObj heap i = PyObj.pstr s → s.length > sl →
      shortenM heap i ll sl = JVal.jstr (s.take sl ++ "...")) ∧
    (∀ heap i es ll sl, lookupObj heap i = PyObj.plist es → es.length > ll →
      shortenM heap i ll sl =
        JVal.jarr ((es.map (fun j => transformM heap [i] j)).take ll ++
          [JVal.jstr "...",
           JVal.jstr ("(" ++ toString (es.length - ll) ++ " more elements)")])) := by
  constructor
  · intro heap i s ll sl h hlen
    unfold shortenM
    rw [transformM_str heap [] i s h (by simp)]
    simp [hlen]
  · intro heap i es ll sl h hlen
    unfold shortenM
    rw [transformM_list heap [] i es h (by simp)]
    simp [hlen]

/-- Witness for C6: a 4-character string truncated to 2 characters, and
a 3-element list truncated to 2 elements. -/
theorem c6_shorten_truncation_laws_witness :
    shortenM [(0, PyObj.pstr "abcd")] 0 5 2 = JVal.jstr ("abcd".take 2 ++ "...") ∧
    shortenM [(1, PyObj.plist [2, 3, 4]), (2, PyObj.pint 1), (3, PyObj.pint 2),
        (4, PyObj.pint 3)] 1 2 9 =
      JVal.jarr (([2, 3, 4].map (fun j =>
          transformM [(1, PyObj.plist [2, 3, 4]), (2, PyObj.pint 1),
            (3, PyObj.pint 2), (4, PyObj.pint 3)] [1] j)).take 2 ++
        [JVal.jstr "...",
         JVal.jstr ("(" ++ toString (3 - 2) ++ " more elements)")]) :=
  ⟨c6_shorten_truncation_laws.1 _ 0 "abcd" 5 2 rfl (by decide),
   c6_shorten_truncation_laws.2 _ 1 [2, 3, 4] 2 9 rfl (by decide)⟩

/-! ## Claims C7, C9, C10 — frame hiding, line numbers, stack fallback -/

/-- C7: a frame whose local scope binds a truthy `__traceback_hide__`
marker never contributes a descriptor, regardless of its position: the
output of `get_stack_info` on any frame sequence equals its output on
the sequence with the hidden frames removed, and `iter_stack_frames`
itself (on a provided, non-empty frame list) yields exactly the
non-hidden frames — the skip is applied in both functions. -/
theorem c7_hidden_frames_never_appear :
    (∀ (env : Env) (fis : List FrameInfo), get_stack_infoM env fis =
      get_stack_infoM env
        (fis.filter (fun fi => !(hideMarker env.heap fi.frameOf.f_locals)))) ∧
    (∀ (env : Env) (f : PyFrame × Nat) (fs : List (PyFrame × Nat)),
      iter_stack_framesM env (some (f :: fs)) =
        (f :: fs).filter (fun p => !(hideMarker env.heap p.1.f_locals))) := by
  constructor
  · intro env fis
    induction fis with
    | nil => rfl
    | cons fi rest ih =>
      cases hh : hideMarker env.heap fi.frameOf.f_locals with
      | true =>
        rw [List.filter_cons_of_neg (by simp [hh])]
        simp only [get_stack_infoM, hh]
        exact ih
      | false =>
        rw [List.filter_cons_of_pos (by simp [hh])]
        simp only [get_stack_infoM, hh]
        rw [ih]
  · intro env f fs
    rfl

/-- C9 (amended): for every runtime-reported line number of at least 1,
the internal 0-based adjustment (`if lineno: lineno -= 1`) and the final
1-based re-adjustment (`'lineno': lineno + 1`) cancel, so the
descriptor's `lineno` equals the reported value.  (The claim's "for
every reported value" fails at 0, see the counterexample.) -/
theorem c9_lineno_round_trip (env : Env) (f : PyFrame) (n : Nat)
    (r : FrameResult) (hn : 1 ≤ n) (h : frameEntry env f n = Except.ok r) :
    r.lineno = n := by
  unfold frameEntry at h
  have hne : n ≠ 0 := by omega
  simp only [if_pos hne] at h
  cases hGL : frameContextOf env f (frameAbsPath f) (n - 1) with
  | error e => rw [hGL] at h; cases h
  | ok c =>
    rw [hGL] at h
    injection h with h2
    subst h2
    show (n - 1) + 1 = n
    omega

/-- Witness for C9 at reported line number 3. -/
theorem c9_lineno_round_trip_witness :
    1 ≤ 3 ∧ (frameEntry c9env c9frame 3).map FrameResult.lineno = Except.ok 3 := by
  refine ⟨by decide, ?_⟩
  have h : frameEntry c9env c9frame 3 = Except.ok
      { abs_path := none, filename := none, moduleVal := none,
        functionVal := "<unknown>", lineno := 3, vars := JVal.jnull,
        context := none } := rfl
  have h2 := c9_lineno_round_trip c9env c9frame 3 _ (by decide) h
  rw [h]
  exact congrArg Except.ok h2

/-- C9 counterexample: a frame whose reported line number is 0 gets
descriptor `lineno` 1, not 0 — `if lineno:` is falsy at 0, so only the
`+ 1` re-adjustment fires and the claimed round-trip identity fails for
that reported value. -/
theorem c9_lineno_round_trip_counterexample :
    (frameEntry c9env c9frame 0).map FrameResult.lineno = Except.ok 1 := rfl

/-- C10: calling `iter_stack_frames` with `None` or an empty frame list
does not yield the empty sequence derived from that argument: `if not
frames:` is true for both, so it falls back to `inspect.stack()[1:]` —
the live call stack excluding `iter_stack_frames`'s own frame — and
yields its non-hidden frames. -/
theorem c10_empty_frames_fall_back_to_live_stack :
    (∀ env : Env, iter_stack_framesM env none =
      (env.callStack.drop 1).filter
        (fun p => !(hideMarker env.heap p.1.f_locals))) ∧
    (∀ env : Env, iter_stack_framesM env (some []) =
      (env.callStack.drop 1).filter
        (fun p => !(hideMarker env.heap p.1.f_locals))) :=
  ⟨fun _ => rfl, fun _ => rfl⟩



/-! ## Claims C1, C2, C3, C8 — format, the safe encoder, mutation -/

/-- C1: the claimed no-throw invariant does not hold in the code.  For
the inbound-contract record `c1rec`, whose `args` is `None`, `format`
raises `TypeError` while evaluating `[str(a) for a in record.args]` in
`_prepare_data` (iterating `None`), instead of returning a syntactically
valid JSON string. -/
theorem c1_format_raises_on_none_args :
    formatM c1env c1cfg c1rec = Except.error PyErr.typeError := rfl

/-- C2 (amended): the encoder first attempts to encode the full event;
on failure it removes only the `'sentry.interfaces.Exception'` field —
the `'sentry.interfaces.Stacktrace'` field is retained for the retry —
and if the second attempt also fails it returns exactly the literal
`'{}'`; the result is always syntactically valid JSON. -/
theorem c2_convert_retries_without_exception_field_only
    (data : List (String × JVal)) :
    IsValidJson (convertToJson data) ∧
    (encodeJson (.jobj data) = none →
      convertToJson data =
        (match encodeJson (.jobj (popKey data SENTRY_INTERFACES_EXCEPTION)) with
         | some s => s
         | none => "\x7b\x7d") ∧
      (popKey data SENTRY_INTERFACES_EXCEPTION).lookup SENTRY_INTERFACES_STACKTRACE =
        data.lookup SENTRY_INTERFACES_STACKTRACE) := by
  refine ⟨validJson_convertToJson data, fun h => ⟨?_, ?_⟩⟩
  · unfold convertToJson convertToJsonS
    simp only [h]
    cases he : encodeJson (.jobj (popKey data SENTRY_INTERFACES_EXCEPTION)) <;>
      simp [he]
  · exact popKey_lookup_other data _ _ (by decide)

/-- Witness for C2 on an event with an unencodable exception value. -/
theorem c2_convert_retries_without_exception_field_only_witness :
    IsValidJson (convertToJson c2dataBadExc) ∧
    convertToJson c2dataBadExc =
      (match encodeJson (.jobj (popKey c2dataBadExc SENTRY_INTERFACES_EXCEPTION)) with
       | some s => s
       | none => "\x7b\x7d") ∧
    (popKey c2dataBadExc SENTRY_INTERFACES_EXCEPTION).lookup SENTRY_INTERFACES_STACKTRACE =
      c2dataBadExc.lookup SENTRY_INTERFACES_STACKTRACE :=
  ⟨(c2_convert_retries_without_exception_field_only c2dataBadExc).1,
   ((c2_convert_retries_without_exception_field_only c2dataBadExc).2 rfl).1,
   ((c2_convert_retries_without_exception_field_only c2dataBadExc).2 rfl).2⟩

/-- C2 counterexample: on an event whose unencodable value sits under
the stacktrace key, the code returns `'{}'` — it removed only the
exception key, so the retry still fails — whereas the claimed behavior
(removing both the exception and the stacktrace field before the retry)
would return the encodable remainder.  The two disagree at this input,
so `_convert_to_json` does not remove both fields as claimed. -/
theorem c2_counterexample_stacktrace_not_removed :
    convertToJson c2dataBadStack ≠ convertToJsonClaimed c2dataBadStack := by
  decide

/-- C3 (amended): an exception raised while building the exception block
is NOT contained: `_prepare_data` calls `_add_exception_info` with no
handler, so the failure propagates out of `format` and no event is
returned for the record (only JSON-encoding failures are contained, by
`_convert_to_json` dropping the exception field). -/
theorem c3_exception_block_failure_propagates
    (env : Env) (cfg : L2JConfig) (rec : LogRecord) (l : List PyObj)
    (message : String) (params : List String) (ei : ExcInfo) (e : PyErr)
    (hmsg : getMessageM rec = .ok message)
    (hargs : rec.args = some l)
    (hparams : l.mapM pyStrOf = .ok params)
    (hexc : rec.exc_info = some ei)
    (hadd : addExceptionInfoM env cfg (baseDataOf env cfg rec message params)
      rec ei = .error e) :
    formatM env cfg rec = .error e := by
  simp only [formatM, prepareDataM, hmsg, hargs, hparams, hexc, hadd]

/-- Witness for C3: a record whose exception-block construction raises
`LookupError` (unknown declared source encoding) makes `format` raise. -/
theorem c3_exception_block_failure_propagates_witness :
    formatM c3env c3cfg c3recW = Except.error PyErr.lookupError :=
  c3_exception_block_failure_propagates c3env c3cfg c3recW [] "boom2" []
    c3exc PyErr.lookupError rfl rfl rfl rfl rfl

/-- C3 counterexample: for the concrete record `c3rec` with exception
info whose traceback source file declares an unknown coding, the
exception-block construction raises and `format` raises with it — it
does not return a valid event JSON without the exception block, contrary
to the claim. -/
theorem c3_counterexample_format_raises :
    formatM c3env c3cfg c3rec = Except.error PyErr.lookupError := rfl

/-- C8 (amended): `_convert_to_json` leaves the event mapping unchanged
exactly when the first encoding attempt succeeds; on the error path it
mutates the event in place, removing the `'sentry.interfaces.Exception'`
key (`sentry_data.pop`). -/
theorem c8_event_dict_unchanged_only_on_success
    (data : List (String × JVal)) :
    (∀ s, encodeJson (.jobj data) = some s → convertToJsonS data = (s, data)) ∧
    (encodeJson (.jobj data) = none →
      (convertToJsonS data).2 = popKey data SENTRY_INTERFACES_EXCEPTION) := by
  constructor
  · intro s h
    simp [convertToJsonS, h]
  · intro h
    unfold convertToJsonS
    simp only [h]
    cases he : encodeJson (.jobj (popKey data SENTRY_INTERFACES_EXCEPTION)) <;>
      simp [he]

/-- Witness for C8: the success path preserves the dict; the error path
leaves the popped dict. -/
theorem c8_event_dict_unchanged_only_on_success_witness :
    convertToJsonS c8dataGood = ("\x7b\"k\": \"v\"\x7d", c8dataGood) ∧
    (convertToJsonS c8dataBadExc).2 = popKey c8dataBadExc SENTRY_INTERFACES_EXCEPTION :=
  ⟨(c8_event_dict_unchanged_only_on_success c8dataGood).1 _ rfl,
   (c8_event_dict_unchanged_only_on_success c8dataBadExc).2 rfl⟩

/-- C8 counterexample: on the error path the event mapping handed to the
encoder is NOT left unchanged — after the call the
`'sentry.interfaces.Exception'` key that the input event contained is
gone. -/
theorem c8_counterexample_exception_key_removed :
    ((convertToJsonS c8dataBadExc).2.lookup SENTRY_INTERFACES_EXCEPTION).isNone = true ∧
    (c8dataBadExc.lookup SENTRY_INTERFACES_EXCEPTION).isNone = false := by
  decide
